import Mathlib

/-!
Verification of the Uptimer URL-monitoring core (url_monitor.py, config.py).

The prober, the periodic scheduler loop, the concurrent fan-out cycle and the
configuration validator are shallowly embedded as Lean functions.  Network
behaviour is abstracted as a `ProbeOutcome` value per URL (an HTTP response,
a timeout, or another exception), matching the three branches of
`URLMonitor.ping_url`.  Machine floats for response times are modelled as
rationals; timestamps are abstract strings.
-/

/-- Outcome of the single HTTP GET issued by `ping_url` (url_monitor.py:36-85):
either an HTTP response arrived (with its status and the elapsed wall-clock
seconds), the request timed out (`asyncio.TimeoutError`), or some other
exception was raised (carrying its stringified description `str(e)`). -/
inductive ProbeOutcome where
  | response (status : Nat) (elapsed : ℚ)
  | timeout (elapsed : ℚ)
  | failure (msg : String) (elapsed : ℚ)
deriving DecidableEq, Repr

/-- Whether the probe outcome is a failure path of `ping_url` (timeout or
other exception), as opposed to a received HTTP response. -/
def ProbeOutcome.is_failure : ProbeOutcome → Bool
  | .response _ _ => false
  | .timeout _ => true
  | .failure _ _ => true

/-- The result dictionary built by `ping_url` (url_monitor.py:47-54, 62-69,
76-83): keys url, status_code, response_time, success, timestamp, error. -/
structure PingResult where
  url : String
  status_code : Nat
  response_time : ℚ
  success : Bool
  timestamp : String
  error : Option String
deriving DecidableEq, Repr

/-- `URLMonitor.ping_url` (url_monitor.py:32-85).  `ts` is the ISO string of
the start time.  The three branches are translated one to one:
with a response, success is `200 <= response.status < 400` and error is None;
on `asyncio.TimeoutError`, status_code 408, error "Request timeout";
on any other exception `e`, status_code 0, error `str(e)`.  Every branch
returns a result dictionary; nothing is raised to the caller. -/
def ping_url (url : String) (ts : String) : ProbeOutcome → PingResult
  | .response status elapsed =>
      { url := url
        status_code := status
        response_time := elapsed
        success := decide (200 ≤ status ∧ status < 400)
        timestamp := ts
        error := none }
  | .timeout elapsed =>
      { url := url
        status_code := 408
        response_time := elapsed
        success := false
        timestamp := ts
        error := some "Request timeout" }
  | .failure msg elapsed =>
      { url := url
        status_code := 0
        response_time := elapsed
        success := false
        timestamp := ts
        error := some msg }

/-- Result of one probe task as seen after
`asyncio.gather(*ping_tasks, return_exceptions=True)` (url_monitor.py:99):
either the task completed and returned the `ping_url` dictionary for the
probe outcome, or an unexpected exception escaped the task and was captured
by gather as an exception object. -/
inductive TaskOutcome where
  | completed (o : ProbeOutcome)
  | raised (msg : String)
deriving DecidableEq, Repr

/-- Whether the gathered result is an exception object
(`isinstance(result, Exception)`, url_monitor.py:104). -/
def TaskOutcome.is_raised : TaskOutcome → Bool
  | .completed _ => false
  | .raised _ => true

/-- One call to `DataManager.update_url_status` made by the cycle
(url_monitor.py:113-119): the arguments passed for the owning admin.  The
store appends a CheckRecord and updates current status from these fields. -/
structure StoreUpdate where
  url : String
  admin_chat_id : String
  status_code : Nat
  response_time : ℚ
  success : Bool
deriving DecidableEq, Repr

/-- Everything one cycle of `ping_all_urls` produces: the returned
`ping_results` dictionary (as an ordered association list), the store updates
issued, and the alerts dispatched (url, admin) in processing order. -/
structure CycleOutcome where
  ping_results : List (String × PingResult)
  updates : List StoreUpdate
  alerts : List (String × String)
deriving DecidableEq, Repr

/-- `URLMonitor._send_alert` (url_monitor.py:168-196) reduced to its
dispatch effect: if no bot instance is set it logs a warning and returns
without sending anything; otherwise it sends one alert message to the
owning admin (a delivery failure is caught and logged inside the method,
never propagated).  The returned list holds the dispatched (url, admin)
alert, empty when no bot instance is set. -/
def send_alert (bot_set : Bool) (url admin : String) : List (String × String) :=
  if bot_set then [(url, admin)] else []

/-- `URLMonitor.ping_all_urls` (url_monitor.py:87-126) over the url-to-admin
dictionary returned by `self.data_manager.get_all_urls()`, given per-URL task
outcomes.  One ping task is created per dictionary key; gather collects them
with `return_exceptions=True`; then each result in order is processed:
an exception object is logged and skipped (`continue`); otherwise the result
is entered into `ping_results` under its url, `update_url_status` is called
for the admin the dictionary maps that url to, and if the result was not a
success `_send_alert` is invoked for that admin.  (In the source the admin is
found by `url_to_admin[result["url"]]`; since `ping_url` stores its argument
url in the result and dictionary keys are unique, that lookup yields exactly
the entry the task was created from, as iterated here.) -/
def ping_all_urls (ts : String) (task : String → TaskOutcome) (bot_set : Bool) :
    List (String × String) → CycleOutcome
  | [] => { ping_results := [], updates := [], alerts := [] }
  | (url, admin) :: rest =>
    let c := ping_all_urls ts task bot_set rest
    match task url with
    | .raised _ => c
    | .completed o =>
      let r := ping_url url ts o
      { ping_results := (url, r) :: c.ping_results
        updates :=
          { url := url
            admin_chat_id := admin
            status_code := r.status_code
            response_time := r.response_time
            success := r.success } :: c.updates
        alerts := if r.success then c.alerts
                  else send_alert bot_set url admin ++ c.alerts }

/-- Insertion into a Python dictionary represented as an association list:
overwrites the value in place when the key is present, appends otherwise. -/
def dict_insert (k v : String) : List (String × String) → List (String × String)
  | [] => [(k, v)]
  | (q, w) :: rest => if q = k then (k, v) :: rest else (q, w) :: dict_insert k v rest

/-- Modelled from the spec: `DataManager.get_all_urls` (data_manager.py is not
under src/).  Per the Store contract, `getAllURLs() -> Map<url, ownerID>` is a
global dictionary keyed by URL whose values are owner IDs, built from each
owner registry entry (owner, registered URL list) with Python dictionary
insertion semantics: when several owners registered the same URL, a later
insertion overwrites the map entry, so the dictionary retains one owner per
URL. -/
def get_all_urls (registry : List (String × List String)) : List (String × String) :=
  registry.foldl (fun acc p => p.2.foldl (fun acc2 u => dict_insert u p.1 acc2) acc) []

/-- Inter-cycle sleep computed by `start_monitoring` (url_monitor.py:216):
`sleep_time = max(0, self.ping_interval - elapsed_time)`. -/
def sleep_time (ping_interval elapsed : ℚ) : ℚ :=
  max 0 (ping_interval - elapsed)

/-- Whether the loop takes the overrun-warning branch instead of sleeping
(url_monitor.py:218-222): it sleeps only when `sleep_time > 0`, otherwise it
logs the cycle-took-longer-than-interval warning and proceeds immediately. -/
def cycle_overrun_warning (ping_interval elapsed : ℚ) : Bool :=
  !decide (0 < sleep_time ping_interval elapsed)

/-- How one execution of the body of the `while self.is_running` loop in
`start_monitoring` (url_monitor.py:208-222) ends: the cycle and the sleep
complete normally (with `stop_called` recording whether `stop_monitoring`
was invoked meanwhile, clearing the running flag), or an
`asyncio.CancelledError` reaches the loop, or some other exception escapes
the cycle control structure. -/
inductive IterOutcome where
  | normal (stop_called : Bool)
  | cancelled
  | exn (msg : String)

/-- Why the monitoring loop stopped: the running flag was observed false at
the top of an iteration, a CancelledError propagated, or another exception
propagated. -/
inductive LoopExit where
  | flagCleared
  | cancelled
  | exn (msg : String)
deriving DecidableEq, Repr

/-- Observable outcome of the monitoring loop: why it stopped, the value of
`is_running` afterwards (the `finally` block of url_monitor.py:230-232 sets
it to False on every exit), the message logged at error severity by the
generic exception handler (url_monitor.py:227-229) if any, and how many
cycles ran to completion. -/
structure LoopResult where
  exit : LoopExit
  final_is_running : Bool
  error_logged : Option String
  cycles_run : Nat
deriving DecidableEq, Repr

/-- The `while self.is_running` loop of `start_monitoring`
(url_monitor.py:207-232), fuel-bounded.  `k` counts completed cycles,
`running` is the flag value observed at the top of the iteration.  A normal
iteration runs exactly one `ping_all_urls` cycle then sleeps and continues
with the next cycle; `except asyncio.CancelledError` re-raises after an
info-level log; `except Exception` logs the error and re-raises; the
`finally` block clears `is_running` on every exit path.  Returns none when
the fuel runs out with the loop still running. -/
def monitor_loop : Nat → Nat → (Nat → IterOutcome) → Bool → Option LoopResult
  | 0, _, _, _ => none
  | fuel + 1, k, behav, running =>
    if running then
      match behav k with
      | .normal stop_called => monitor_loop fuel (k + 1) behav (!stop_called)
      | .cancelled =>
          some { exit := .cancelled, final_is_running := false,
                 error_logged := none, cycles_run := k }
      | .exn msg =>
          some { exit := .exn msg, final_is_running := false,
                 error_logged := some msg, cycles_run := k }
    else
      some { exit := .flagCleared, final_is_running := false,
             error_logged := none, cycles_run := k }

/-- The mutable state of a `URLMonitor` instance as set by `__init__`
(url_monitor.py:15-22) and its mutators.  The bot instance and the
monitoring task are abstract handles; ping_interval and request_timeout are
the constructor arguments. -/
structure URLMonitor where
  ping_interval : Int
  request_timeout : Int
  is_running : Bool
  bot_instance : Option String
  admin_chat_id : Option Int
  monitoring_task : Option Unit
deriving DecidableEq, Repr

/-- `URLMonitor.__init__` (url_monitor.py:15-22): not running, no bot
instance, no admin chat id, and `_monitoring_task = None`. -/
def init_monitor (ping_interval request_timeout : Int) : URLMonitor :=
  { ping_interval := ping_interval
    request_timeout := request_timeout
    is_running := false
    bot_instance := none
    admin_chat_id := none
    monitoring_task := none }

/-- `URLMonitor.stop_monitoring` (url_monitor.py:234-239): sets the running
flag to False, and cancels `self._monitoring_task` when that attribute holds
a task (`if self._monitoring_task:`).  The Bool result records whether a
cancel call was issued. -/
def stop_monitoring (m : URLMonitor) : URLMonitor × Bool :=
  ({ m with is_running := false }, m.monitoring_task.isSome)

/-- The operations of the repository that mutate a `URLMonitor` after
construction: `set_bot_instance` (url_monitor.py:24-26), `set_admin_chat_id`
(url_monitor.py:28-30), `start_monitoring` setting the flag
(url_monitor.py:200-204), the loop `finally` block clearing it
(url_monitor.py:230-231), and `stop_monitoring` (url_monitor.py:234-239).
No operation anywhere in the repository assigns `_monitoring_task`: it is
only set to None by `__init__`. -/
inductive MonitorOp where
  | set_bot_instance (bot : String)
  | set_admin_chat_id (chat_id : Int)
  | start
  | loop_finished
  | stop

/-- Effect of each repository operation on the monitor state. -/
def apply_op (m : URLMonitor) : MonitorOp → URLMonitor
  | .set_bot_instance b => { m with bot_instance := some b }
  | .set_admin_chat_id c => { m with admin_chat_id := some c }
  | .start => if m.is_running then m else { m with is_running := true }
  | .loop_finished => { m with is_running := false }
  | .stop => (stop_monitoring m).1

/-- The monitor states reachable in this program: a fresh `__init__` state
followed by any sequence of the mutating operations of the repository. -/
inductive Reachable : URLMonitor → Prop
  | init (i t : Int) : Reachable (init_monitor i t)
  | step (m : URLMonitor) (op : MonitorOp) :
      Reachable m → Reachable (apply_op m op)

/-- A Python error raised by `Config.validate_config`: an attribute lookup
failure or the ValueError raised on collected configuration errors. -/
inductive PyError where
  | attributeError (name : String)
  | valueError (msg : String)
deriving DecidableEq, Repr

/-- The attributes of a `Config` instance as assigned by `Config.__init__`
(config.py:11-20).  The field `admin_chat_id` is an `Option` because no
method of `Config` ever assigns an attribute of that name (`__init__` sets
`primary_admin_chat_id` and `admin_chat_ids` instead): `none` models the
attribute being absent, so that reading it raises `AttributeError`. -/
structure Config where
  bot_token : String
  primary_admin_chat_id : Int
  admin_chat_ids : List Int
  admin_data_file : String
  ping_interval : Int
  request_timeout : Int
  data_file : String
  log_file : String
  admin_chat_id : Option Int
deriving DecidableEq, Repr

/-- The `Config` built by `Config.__init__` (config.py:11-20).  The file
load in `_load_admin_data` only touches `admin_chat_ids` and is omitted; no
attribute named `admin_chat_id` is ever assigned. -/
def default_config : Config :=
  { bot_token := "8405898835:AAE6g8TGXPjHeLt0NObIqFQv4mLreqxM"
    primary_admin_chat_id := 1691680798
    admin_chat_ids := [1691680798]
    admin_data_file := "admin_data.json"
    ping_interval := 60
    request_timeout := 30
    data_file := "urls_data.json"
    log_file := "bot.log"
    admin_chat_id := none }

/-- `Config.validate_config` (config.py:101-121), translated check by
check: collect an error string for a falsy bot token, then read
`self.admin_chat_id` — an attribute no `Config` code ever assigns, so the
access raises `AttributeError` when the attribute is absent; only with that
attribute present would the remaining checks run, collecting errors for a
falsy admin chat id, a non-positive ping interval and a non-positive request
timeout, raising ValueError when any error was collected and returning True
otherwise. -/
def validate_config (c : Config) : Except PyError Bool :=
  let errors : List String :=
    if c.bot_token = "" then ["Bot token is missing"] else []
  match c.admin_chat_id with
  | none => Except.error (PyError.attributeError "admin_chat_id")
  | some a =>
    let errors := if a = 0 then errors ++ ["Admin chat ID is missing"] else errors
    let errors :=
      if c.ping_interval ≤ 0 then errors ++ ["Ping interval must be positive"]
      else errors
    let errors :=
      if c.request_timeout ≤ 0 then errors ++ ["Request timeout must be positive"]
      else errors
    if errors.isEmpty then Except.ok true
    else Except.error (PyError.valueError
      ("Configuration errors: " ++ String.intercalate ", " errors))

/-- C2: the prober never raises to its caller: `ping_url` is a total function
on probe outcomes, every call returns a result dictionary for the probed URL,
and every timeout or other failure comes back with success=false and a
non-null error description. -/
theorem uptimer_C2_ping_url_never_raises (url ts : String) (o : ProbeOutcome) :
    (ping_url url ts o).url = url ∧
    (o.is_failure = true →
      (ping_url url ts o).success = false ∧
      ((ping_url url ts o).error).isSome = true) := by
  cases o <;> simp [ping_url, ProbeOutcome.is_failure]

/-- Witness for C2 at a concrete timed-out probe. -/
theorem uptimer_C2_witness :
    (ping_url "http://a" "t" (ProbeOutcome.timeout 1)).url = "http://a" ∧
    ((ProbeOutcome.timeout 1).is_failure = true →
      (ping_url "http://a" "t" (ProbeOutcome.timeout 1)).success = false ∧
      ((ping_url "http://a" "t" (ProbeOutcome.timeout 1)).error).isSome = true) :=
  uptimer_C2_ping_url_never_raises "http://a" "t" (ProbeOutcome.timeout 1)

/-- C3: with an HTTP response, success holds iff 200 <= status < 400;
status 399 gives success, status 400 does not; and a probe with no response
(timeout or other failure) gives success=false. -/
theorem uptimer_C3_success_classification (url ts : String) (s : Nat) (e : ℚ)
    (m : String) :
    ((ping_url url ts (ProbeOutcome.response s e)).success = true ↔
      (200 ≤ s ∧ s < 400)) ∧
    (ping_url url ts (ProbeOutcome.response 399 e)).success = true ∧
    (ping_url url ts (ProbeOutcome.response 400 e)).success = false ∧
    (ping_url url ts (ProbeOutcome.timeout e)).success = false ∧
    (ping_url url ts (ProbeOutcome.failure m e)).success = false := by
  simp [ping_url]

/-- C5: the timeout branch always records status_code 408, error
"Request timeout" and success=false, whatever the elapsed time; every other
transport or protocol failure records status_code 0 and the stringified
failure description as its error. -/
theorem uptimer_C5_failure_encoding (url ts m : String) (e f : ℚ) :
    (ping_url url ts (ProbeOutcome.timeout e)).status_code = 408 ∧
    (ping_url url ts (ProbeOutcome.timeout e)).error = some "Request timeout" ∧
    (ping_url url ts (ProbeOutcome.timeout e)).success = false ∧
    (ping_url url ts (ProbeOutcome.timeout e)).response_time = e ∧
    (ping_url url ts (ProbeOutcome.failure m f)).status_code = 0 ∧
    (ping_url url ts (ProbeOutcome.failure m f)).error = some m ∧
    (ping_url url ts (ProbeOutcome.failure m f)).success = false := by
  simp [ping_url]

/-- Unfolding equation of the cycle at an entry whose probe task completed. -/
theorem pingAll_cons_completed (ts : String) (task : String → TaskOutcome)
    (bot : Bool) (url admin : String) (rest : List (String × String))
    (o : ProbeOutcome) (h : task url = TaskOutcome.completed o) :
    ping_all_urls ts task bot ((url, admin) :: rest) =
      { ping_results :=
          (url, ping_url url ts o) :: (ping_all_urls ts task bot rest).ping_results
        updates :=
          { url := url, admin_chat_id := admin,
            status_code := (ping_url url ts o).status_code,
            response_time := (ping_url url ts o).response_time,
            success := (ping_url url ts o).success } ::
            (ping_all_urls ts task bot rest).updates
        alerts :=
          if (ping_url url ts o).success then (ping_all_urls ts task bot rest).alerts
          else send_alert bot url admin ++ (ping_all_urls ts task bot rest).alerts } := by
  simp [ping_all_urls, h]

/-- Unfolding equation of the cycle at an entry whose probe task raised: the
exception is logged and the entry contributes nothing. -/
theorem pingAll_cons_raised (ts : String) (task : String → TaskOutcome)
    (bot : Bool) (url admin : String) (rest : List (String × String))
    (msg : String) (h : task url = TaskOutcome.raised msg) :
    ping_all_urls ts task bot ((url, admin) :: rest) =
      ping_all_urls ts task bot rest := by
  simp [ping_all_urls, h]

/-- Helper: a cycle entry whose task completed contributes its result to the
returned ping_results dictionary. -/
theorem pingAll_mem_results (m : List (String × String)) (ts : String)
    (task : String → TaskOutcome) (bot : Bool) (url admin : String)
    (o : ProbeOutcome) (hmem : (url, admin) ∈ m)
    (htask : task url = TaskOutcome.completed o) :
    (url, ping_url url ts o) ∈ (ping_all_urls ts task bot m).ping_results := by
  induction m with
  | nil => simp at hmem
  | cons hd tl ih =>
    obtain ⟨u0, a0⟩ := hd
    rcases List.mem_cons.mp hmem with h | h
    · obtain ⟨rfl, rfl⟩ : url = u0 ∧ admin = a0 := by simpa using h
      rw [pingAll_cons_completed ts task bot url admin tl o htask]
      exact List.mem_cons_self _ _
    · cases htu : task u0 with
      | completed o0 =>
        rw [pingAll_cons_completed ts task bot u0 a0 tl o0 htu]
        exact List.mem_cons_of_mem _ (ih h)
      | raised msg =>
        rw [pingAll_cons_raised ts task bot u0 a0 tl msg htu]
        exact ih h

/-- Helper: a cycle entry whose task completed produces exactly the
update_url_status call recorded from its result fields. -/
theorem pingAll_mem_updates (m : List (String × String)) (ts : String)
    (task : String → TaskOutcome) (bot : Bool) (url admin : String)
    (o : ProbeOutcome) (hmem : (url, admin) ∈ m)
    (htask : task url = TaskOutcome.completed o) :
    ({ url := url, admin_chat_id := admin,
       status_code := (ping_url url ts o).status_code,
       response_time := (ping_url url ts o).response_time,
       success := (ping_url url ts o).success } : StoreUpdate) ∈
      (ping_all_urls ts task bot m).updates := by
  induction m with
  | nil => simp at hmem
  | cons hd tl ih =>
    obtain ⟨u0, a0⟩ := hd
    rcases List.mem_cons.mp hmem with h | h
    · obtain ⟨rfl, rfl⟩ : url = u0 ∧ admin = a0 := by simpa using h
      rw [pingAll_cons_completed ts task bot url admin tl o htask]
      exact List.mem_cons_self _ _
    · cases htu : task u0 with
      | completed o0 =>
        rw [pingAll_cons_completed ts task bot u0 a0 tl o0 htu]
        exact List.mem_cons_of_mem _ (ih h)
      | raised msg =>
        rw [pingAll_cons_raised ts task bot u0 a0 tl msg htu]
        exact ih h

/-- Helper: a failing completed probe for an entry yields an alert to the
admin of that entry when the bot instance is set. -/
theorem pingAll_mem_alerts (m : List (String × String)) (ts : String)
    (task : String → TaskOutcome) (url admin : String)
    (o : ProbeOutcome) (hmem : (url, admin) ∈ m)
    (htask : task url = TaskOutcome.completed o)
    (hfail : (ping_url url ts o).success = false) :
    (url, admin) ∈ (ping_all_urls ts task true m).alerts := by
  induction m with
  | nil => simp at hmem
  | cons hd tl ih =>
    obtain ⟨u0, a0⟩ := hd
    rcases List.mem_cons.mp hmem with h | h
    · obtain ⟨rfl, rfl⟩ : url = u0 ∧ admin = a0 := by simpa using h
      rw [pingAll_cons_completed ts task true url admin tl o htask]
      simp [hfail, send_alert]
    · cases htu : task u0 with
      | completed o0 =>
        rw [pingAll_cons_completed ts task true u0 a0 tl o0 htu]
        by_cases hs : (ping_url u0 ts o0).success
        · simpa [hs] using ih h
        · simp only [Bool.not_eq_true] at hs
          simp only [hs, Bool.false_eq_true, if_false]
          exact List.mem_append_right _ (ih h)
      | raised msg =>
        rw [pingAll_cons_raised ts task true u0 a0 tl msg htu]
        exact ih h

/-- Helper: every dispatched alert names an entry of the url-to-admin map. -/
theorem pingAll_alerts_sub (m : List (String × String)) (ts : String)
    (task : String → TaskOutcome) (bot : Bool) (u a : String)
    (h : (u, a) ∈ (ping_all_urls ts task bot m).alerts) : (u, a) ∈ m := by
  induction m with
  | nil => simp [ping_all_urls] at h
  | cons hd tl ih =>
    obtain ⟨u0, a0⟩ := hd
    cases htu : task u0 with
    | completed o0 =>
      rw [pingAll_cons_completed ts task bot u0 a0 tl o0 htu] at h
      by_cases hs : (ping_url u0 ts o0).success
      · simp only [hs, if_true] at h
        exact List.mem_cons_of_mem _ (ih h)
      · simp only [Bool.not_eq_true] at hs
        simp only [hs, Bool.false_eq_true, if_false, send_alert] at h
        cases bot with
        | true =>
          have h2 : (u = u0 ∧ a = a0) ∨
              (u, a) ∈ (ping_all_urls ts task true tl).alerts := by simpa using h
          rcases h2 with ⟨rfl, rfl⟩ | h1
          · exact List.mem_cons_self _ _
          · exact List.mem_cons_of_mem _ (ih h1)
        | false =>
          exact List.mem_cons_of_mem _ (ih (by simpa using h))
    | raised msg =>
      rw [pingAll_cons_raised ts task bot u0 a0 tl msg htu] at h
      exact List.mem_cons_of_mem _ (ih h)

/-- Helper: the keys of the returned ping_results dictionary are exactly the
map entries whose probe task did not raise: raised tasks are excluded, all
other results are collected. -/
theorem pingAll_keys_filter (m : List (String × String)) (ts : String)
    (task : String → TaskOutcome) (bot : Bool) :
    (ping_all_urls ts task bot m).ping_results.map Prod.fst =
      (m.filter (fun p => !(task p.1).is_raised)).map Prod.fst := by
  induction m with
  | nil => simp [ping_all_urls]
  | cons hd tl ih =>
    obtain ⟨u0, a0⟩ := hd
    cases htu : task u0 with
    | completed o0 =>
      rw [pingAll_cons_completed ts task bot u0 a0 tl o0 htu]
      simp [List.filter, htu, TaskOutcome.is_raised, ih]
    | raised msg =>
      rw [pingAll_cons_raised ts task bot u0 a0 tl msg htu]
      simp [List.filter, htu, TaskOutcome.is_raised, ih]

/-- Unfolding equation of dictionary insertion at a nonempty dictionary. -/
theorem dict_insert_cons_eq (k v q w : String) (rest : List (String × String)) :
    dict_insert k v ((q, w) :: rest) =
      if q = k then (k, v) :: rest else (q, w) :: dict_insert k v rest := rfl

/-- Helper: dictionary insertion adds no key beyond the inserted one. -/
theorem mem_keys_dict_insert (k v q : String) (l : List (String × String))
    (h : q ∈ (dict_insert k v l).map Prod.fst) :
    q = k ∨ q ∈ l.map Prod.fst := by
  induction l with
  | nil =>
    rw [show dict_insert k v [] = [(k, v)] from rfl] at h
    simp at h
    exact Or.inl h
  | cons hd tl ih =>
    obtain ⟨k0, v0⟩ := hd
    rw [dict_insert_cons_eq] at h
    by_cases hk : k0 = k
    · rw [if_pos hk] at h
      simp only [List.map_cons] at h ⊢
      rcases List.mem_cons.mp h with h1 | h1
      · exact Or.inl h1
      · exact Or.inr (List.mem_cons_of_mem _ h1)
    · rw [if_neg hk] at h
      simp only [List.map_cons] at h ⊢
      rcases List.mem_cons.mp h with h1 | h1
      · exact Or.inr (List.mem_cons.mpr (Or.inl h1))
      · rcases ih h1 with h2 | h2
        · exact Or.inl h2
        · exact Or.inr (List.mem_cons_of_mem _ h2)

/-- Helper: dictionary insertion preserves key uniqueness. -/
theorem nodup_keys_dict_insert (k v : String) (l : List (String × String))
    (h : (l.map Prod.fst).Nodup) :
    ((dict_insert k v l).map Prod.fst).Nodup := by
  induction l with
  | nil => simp [dict_insert]
  | cons hd tl ih =>
    obtain ⟨k0, v0⟩ := hd
    simp only [List.map_cons, List.nodup_cons] at h
    rw [dict_insert_cons_eq]
    by_cases hk : k0 = k
    · subst hk
      rw [if_pos rfl]
      simp only [List.map_cons, List.nodup_cons]
      exact h
    · rw [if_neg hk]
      simp only [List.map_cons, List.nodup_cons]
      refine ⟨fun hc => ?_, ih h.2⟩
      rcases mem_keys_dict_insert k v k0 tl hc with h2 | h2
      · exact hk h2
      · exact h.1 h2

/-- Helper: folding one owner registration list into the dictionary keeps
keys unique. -/
theorem nodup_keys_foldl_owner (urls : List String) (owner : String) :
    ∀ acc : List (String × String), (acc.map Prod.fst).Nodup →
      (((urls.foldl (fun a u => dict_insert u owner a) acc)).map Prod.fst).Nodup := by
  induction urls with
  | nil => intro acc h; simpa using h
  | cons u rest ih =>
    intro acc h
    simpa using ih (dict_insert u owner acc) (nodup_keys_dict_insert u owner acc h)

/-- Helper: the global url-to-owner dictionary has one entry per URL. -/
theorem nodup_keys_get_all_urls (registry : List (String × List String)) :
    ((get_all_urls registry).map Prod.fst).Nodup := by
  suffices hgen : ∀ acc : List (String × String), (acc.map Prod.fst).Nodup →
      ((registry.foldl
          (fun acc p => p.2.foldl (fun acc2 u => dict_insert u p.1 acc2) acc)
          acc).map Prod.fst).Nodup by
    exact hgen [] (by simp)
  induction registry with
  | nil => intro acc h; simpa using h
  | cons hd tl ih =>
    intro acc h
    exact ih _ (nodup_keys_foldl_owner hd.2 hd.1 acc h)

/-- Helper: with unique keys, a key determines its associated value. -/
theorem assoc_value_unique (l : List (String × String))
    (hnd : (l.map Prod.fst).Nodup) (u a b : String)
    (ha : (u, a) ∈ l) (hb : (u, b) ∈ l) : a = b := by
  induction l with
  | nil => simp at ha
  | cons hd tl ih =>
    obtain ⟨k0, v0⟩ := hd
    simp only [List.map_cons, List.nodup_cons] at hnd
    rcases List.mem_cons.mp ha with h1 | h1 <;> rcases List.mem_cons.mp hb with h2 | h2
    · obtain ⟨h1a, h1b⟩ : u = k0 ∧ a = v0 := by simpa using h1
      obtain ⟨h2a, h2b⟩ : u = k0 ∧ b = v0 := by simpa using h2
      rw [h1b, h2b]
    · obtain ⟨h1a, -⟩ : u = k0 ∧ a = v0 := by simpa using h1
      have hu : u ∈ tl.map Prod.fst := by
        simpa using List.mem_map_of_mem Prod.fst h2
      exact absurd (h1a ▸ hu) hnd.1
    · obtain ⟨h2a, -⟩ : u = k0 ∧ b = v0 := by simpa using h2
      have hu : u ∈ tl.map Prod.fst := by
        simpa using List.mem_map_of_mem Prod.fst h1
      exact absurd (h2a ▸ hu) hnd.1
    · exact ih hnd.2 h1 h2

/-- C1 counterexample: URL "http://x" is registered by owner "1" and owner
"2", every probe times out, and the bot instance is set; yet the periodic
cycle issues exactly one store update and one alert, to owner "2" only
(the single owner the url-to-owner dictionary retained), and owner "1"
receives no alert — not one CheckRecord and one alert per owner. -/
theorem uptimer_C1_counterexample :
    ((ping_all_urls "t" (fun _ => TaskOutcome.completed (ProbeOutcome.timeout 1))
        true (get_all_urls [("1", ["http://x"]), ("2", ["http://x"])])).alerts =
      [("http://x", "2")]) ∧
    (("http://x", "1") ∉
      (ping_all_urls "t" (fun _ => TaskOutcome.completed (ProbeOutcome.timeout 1))
        true (get_all_urls [("1", ["http://x"]), ("2", ["http://x"])])).alerts) ∧
    ((ping_all_urls "t" (fun _ => TaskOutcome.completed (ProbeOutcome.timeout 1))
        true (get_all_urls [("1", ["http://x"]), ("2", ["http://x"])])).updates.length
      = 1) := by
  refine ⟨rfl, ?_, rfl⟩
  decide

/-- C1 amended: the global url-to-owner dictionary keeps one entry per URL,
so one periodic cycle probes each distinct URL once and, on a failing probe,
writes the status update and dispatches the single alert only to the one
owner recorded for that URL in the dictionary — never independently to each
owner that registered it. -/
theorem uptimer_C1_one_owner_per_url (registry : List (String × List String))
    (ts : String) (task : String → TaskOutcome) (url admin : String)
    (o : ProbeOutcome)
    (hmem : (url, admin) ∈ get_all_urls registry)
    (htask : task url = TaskOutcome.completed o)
    (hfail : (ping_url url ts o).success = false) :
    ((get_all_urls registry).map Prod.fst).Nodup ∧
    (url, admin) ∈
      (ping_all_urls ts task true (get_all_urls registry)).alerts ∧
    (∀ a, (url, a) ∈
        (ping_all_urls ts task true (get_all_urls registry)).alerts →
      a = admin) := by
  refine ⟨nodup_keys_get_all_urls registry,
    pingAll_mem_alerts _ ts task url admin o hmem htask hfail, fun a ha => ?_⟩
  exact assoc_value_unique _ (nodup_keys_get_all_urls registry) url a admin
    (pingAll_alerts_sub _ ts task true url a ha) hmem

/-- Witness for the amended C1 at a concrete one-owner registry with a
timed-out probe. -/
theorem uptimer_C1_one_owner_per_url_witness :
    ((get_all_urls [("1", ["http://x"])]).map Prod.fst).Nodup ∧
    ("http://x", "1") ∈
      (ping_all_urls "t" (fun _ => TaskOutcome.completed (ProbeOutcome.timeout 1))
        true (get_all_urls [("1", ["http://x"])])).alerts := by
  have h := uptimer_C1_one_owner_per_url [("1", ["http://x"])] "t"
    (fun _ => TaskOutcome.completed (ProbeOutcome.timeout 1)) "http://x" "1"
    (ProbeOutcome.timeout 1) (by decide) rfl rfl
  exact ⟨h.1, h.2.1⟩

/-- C6: a probe task exception is caught at the gather join, logged and its
URL excluded from the cycle result map, while every other completed probe is
still collected, written to the store, and alerted on if it failed; the
returned result keys are exactly the non-raised entries, so the batch and the
cycle are never aborted by one task failure. -/
theorem uptimer_C6_task_failure_isolated (m : List (String × String))
    (ts : String) (task : String → TaskOutcome) (bot : Bool)
    (url admin : String) (o : ProbeOutcome)
    (hmem : (url, admin) ∈ m) (htask : task url = TaskOutcome.completed o) :
    (url, ping_url url ts o) ∈ (ping_all_urls ts task bot m).ping_results ∧
    ({ url := url, admin_chat_id := admin,
       status_code := (ping_url url ts o).status_code,
       response_time := (ping_url url ts o).response_time,
       success := (ping_url url ts o).success } : StoreUpdate) ∈
      (ping_all_urls ts task bot m).updates ∧
    ((ping_url url ts o).success = false → bot = true →
      (url, admin) ∈ (ping_all_urls ts task bot m).alerts) ∧
    (ping_all_urls ts task bot m).ping_results.map Prod.fst =
      (m.filter (fun p => !(task p.1).is_raised)).map Prod.fst := by
  refine ⟨pingAll_mem_results m ts task bot url admin o hmem htask,
    pingAll_mem_updates m ts task bot url admin o hmem htask,
    fun hfail hbot => ?_, pingAll_keys_filter m ts task bot⟩
  subst hbot
  exact pingAll_mem_alerts m ts task url admin o hmem htask hfail

/-- Witness for C6: two URLs, the probe task of "http://a" raises while the
probe of "http://b" completes with HTTP 500; the collected results are
exactly the non-raised entry, which is updated and alerted on. -/
theorem uptimer_C6_witness :
    ("http://b", ping_url "http://b" "t" (ProbeOutcome.response 500 1)) ∈
      (ping_all_urls "t"
        (fun u => if u = "http://a" then TaskOutcome.raised "boom"
                  else TaskOutcome.completed (ProbeOutcome.response 500 1))
        true [("http://a", "1"), ("http://b", "2")]).ping_results ∧
    ("http://b", "2") ∈
      (ping_all_urls "t"
        (fun u => if u = "http://a" then TaskOutcome.raised "boom"
                  else TaskOutcome.completed (ProbeOutcome.response 500 1))
        true [("http://a", "1"), ("http://b", "2")]).alerts ∧
    (ping_all_urls "t"
        (fun u => if u = "http://a" then TaskOutcome.raised "boom"
                  else TaskOutcome.completed (ProbeOutcome.response 500 1))
        true [("http://a", "1"), ("http://b", "2")]).ping_results.map Prod.fst =
      ([("http://a", "1"), ("http://b", "2")].filter
        (fun p => !((fun u => if u = "http://a" then TaskOutcome.raised "boom"
                  else TaskOutcome.completed (ProbeOutcome.response 500 1))
            p.1).is_raised)).map Prod.fst := by
  have h := uptimer_C6_task_failure_isolated
    [("http://a", "1"), ("http://b", "2")] "t"
    (fun u => if u = "http://a" then TaskOutcome.raised "boom"
              else TaskOutcome.completed (ProbeOutcome.response 500 1))
    true "http://b" "2" (ProbeOutcome.response 500 1) (by decide) (by decide)
  exact ⟨h.1, h.2.2.1 (by decide) rfl, h.2.2.2⟩

/-- C10: with no bot instance set, the cycle dispatches no alert at all
(`_send_alert` returns without sending and without raising), while the store
updates and the collected results are exactly the ones produced with a bot
instance set: every failing result is still persisted and the cycle
continues normally. -/
theorem uptimer_C10_no_bot_no_alert (m : List (String × String)) (ts : String)
    (task : String → TaskOutcome) :
    (∀ url admin, send_alert false url admin = []) ∧
    (ping_all_urls ts task false m).alerts = [] ∧
    (ping_all_urls ts task false m).updates =
      (ping_all_urls ts task true m).updates ∧
    (ping_all_urls ts task false m).ping_results =
      (ping_all_urls ts task true m).ping_results := by
  refine ⟨fun url admin => rfl, ?_⟩
  induction m with
  | nil => exact ⟨rfl, rfl, rfl⟩
  | cons hd tl ih =>
    obtain ⟨u0, a0⟩ := hd
    cases htu : task u0 with
    | completed o0 =>
      rw [pingAll_cons_completed ts task false u0 a0 tl o0 htu,
        pingAll_cons_completed ts task true u0 a0 tl o0 htu]
      by_cases hs : (ping_url u0 ts o0).success
      · simp only [hs, if_true]
        exact ⟨ih.1, by rw [ih.2.1], by rw [ih.2.2]⟩
      · simp only [Bool.not_eq_true] at hs
        simp only [hs, Bool.false_eq_true, if_false, send_alert]
        exact ⟨by simpa using ih.1, by rw [ih.2.1], by rw [ih.2.2]⟩
    | raised msg =>
      rw [pingAll_cons_raised ts task false u0 a0 tl msg htu,
        pingAll_cons_raised ts task true u0 a0 tl msg htu]
      exact ih

/-- Helper: every reachable monitor state has no registered monitoring
task — nothing in the repository ever assigns `_monitoring_task`. -/
theorem reachable_monitoring_task_none (m : URLMonitor) (hm : Reachable m) :
    m.monitoring_task = none := by
  induction hm with
  | init i t => rfl
  | step m0 op hr ih =>
    cases op with
    | set_bot_instance b => simpa [apply_op] using ih
    | set_admin_chat_id c => simpa [apply_op] using ih
    | start =>
      by_cases h : m0.is_running
      · simpa [apply_op, h] using ih
      · simpa [apply_op, h] using ih
    | loop_finished => simpa [apply_op] using ih
    | stop => simpa [apply_op, stop_monitoring] using ih

/-- C4: after each cycle the scheduler sleeps for max(0, interval − elapsed):
when elapsed < interval it sleeps exactly interval − elapsed with no warning;
when elapsed ≥ interval the sleep is 0 and the overrun warning is logged; and
a normal iteration always continues with exactly the next cycle, never
skipping or coalescing one. -/
theorem uptimer_C4_cycle_timing (i e : ℚ) :
    (e < i → sleep_time i e = i - e ∧ cycle_overrun_warning i e = false) ∧
    (i ≤ e → sleep_time i e = 0 ∧ cycle_overrun_warning i e = true) ∧
    (∀ (fuel k : Nat) (behav : Nat → IterOutcome),
      behav k = IterOutcome.normal false →
      monitor_loop (fuel + 1) k behav true = monitor_loop fuel (k + 1) behav true) := by
  refine ⟨fun hlt => ?_, fun hge => ?_, fun fuel k behav hb => ?_⟩
  · have hs : sleep_time i e = i - e := max_eq_right (by linarith)
    refine ⟨hs, ?_⟩
    simp only [cycle_overrun_warning, hs]
    simp [show (0 : ℚ) < i - e by linarith]
  · have hs : sleep_time i e = 0 := max_eq_left (by linarith)
    refine ⟨hs, ?_⟩
    simp only [cycle_overrun_warning, hs]
    simp
  · simp [monitor_loop, hb]

/-- Witness for C4 at the spec examples: a 5 s cycle under a 60 s interval
sleeps 55 s with no warning; a 65 s cycle sleeps 0 and warns. -/
theorem uptimer_C4_witness :
    (sleep_time 60 5 = 55 ∧ cycle_overrun_warning 60 5 = false) ∧
    (sleep_time 60 65 = 0 ∧ cycle_overrun_warning 60 65 = true) := by
  have h1 := (uptimer_C4_cycle_timing 60 5).1 (by norm_num)
  have h2 := (uptimer_C4_cycle_timing 60 65).2.1 (by norm_num)
  refine ⟨⟨?_, h1.2⟩, h2⟩
  rw [h1.1]
  norm_num

/-- C7: whenever the loop halts, the running flag ends up false (the finally
block); when it halts because an exception escaped the cycle control
structure, that exception was logged at error severity before propagating;
and the only halting conditions are the cleared running flag, cancellation
(both effects of stopMonitoring), and such an escaping exception. -/
theorem uptimer_C7_fatal_exception (fuel k : Nat) (behav : Nat → IterOutcome)
    (running : Bool) (res : LoopResult)
    (h : monitor_loop fuel k behav running = some res) :
    res.final_is_running = false ∧
    (∀ msg, res.exit = LoopExit.exn msg → res.error_logged = some msg) ∧
    (res.exit = LoopExit.flagCleared ∨ res.exit = LoopExit.cancelled ∨
      ∃ msg, res.exit = LoopExit.exn msg) := by
  induction fuel generalizing k running with
  | zero => simp [monitor_loop] at h
  | succ n ih =>
    simp only [monitor_loop] at h
    cases running with
    | false =>
      simp only [Bool.false_eq_true, if_false] at h
      obtain rfl := Option.some.inj h
      exact ⟨rfl, fun msg hmsg => by simp at hmsg, Or.inl rfl⟩
    | true =>
      simp only [if_true] at h
      cases hb : behav k with
      | normal s =>
        rw [hb] at h
        exact ih (k + 1) (!s) h
      | cancelled =>
        rw [hb] at h
        obtain rfl := Option.some.inj h
        exact ⟨rfl, fun msg hmsg => by simp at hmsg, Or.inr (Or.inl rfl)⟩
      | exn msg =>
        rw [hb] at h
        obtain rfl := Option.some.inj h
        refine ⟨rfl, fun msg2 hmsg => ?_, Or.inr (Or.inr ⟨msg, rfl⟩)⟩
        have hm : msg = msg2 := by simpa using hmsg
        simp [hm]

/-- Witness for C7 at a loop whose first cycle raises "boom". -/
theorem uptimer_C7_witness :
    ({ exit := .exn "boom", final_is_running := false,
       error_logged := some "boom", cycles_run := 0 } : LoopResult).final_is_running
      = false ∧
    ({ exit := .exn "boom", final_is_running := false,
       error_logged := some "boom", cycles_run := 0 } : LoopResult).error_logged
      = some "boom" := by
  have h := uptimer_C7_fatal_exception 1 0 (fun _ => IterOutcome.exn "boom") true
    { exit := .exn "boom", final_is_running := false,
      error_logged := some "boom", cycles_run := 0 } rfl
  exact ⟨h.1, h.2.1 "boom" rfl⟩

/-- C8: in any state this program can reach, stopMonitoring issues no task
cancellation (the `_monitoring_task` attribute is never assigned, so the
cancel branch is dead) and changes nothing but the running flag; a cycle
during which stop was called still runs to completion, and only the next
iteration is suppressed, the loop exiting at its top with the flag observed
false. -/
theorem uptimer_C8_stop_only_clears_flag (m : URLMonitor) (hm : Reachable m)
    (behav : Nat → IterOutcome) (k fuel : Nat)
    (hstop : behav k = IterOutcome.normal true) (hfuel : 2 ≤ fuel) :
    (stop_monitoring m).2 = false ∧
    (stop_monitoring m).1 = { m with is_running := false } ∧
    monitor_loop fuel k behav true =
      some { exit := LoopExit.flagCleared, final_is_running := false,
             error_logged := none, cycles_run := k + 1 } := by
  refine ⟨by simp [stop_monitoring, reachable_monitoring_task_none m hm], rfl, ?_⟩
  obtain ⟨f, rfl⟩ : ∃ f, fuel = f + 2 := ⟨fuel - 2, by omega⟩
  simp [monitor_loop, hstop]

/-- Witness for C8 at a started monitor with stop called during cycle 0. -/
theorem uptimer_C8_witness :
    (stop_monitoring (apply_op (init_monitor 60 30) MonitorOp.start)).2 = false ∧
    (stop_monitoring (apply_op (init_monitor 60 30) MonitorOp.start)).1 =
      { apply_op (init_monitor 60 30) MonitorOp.start with is_running := false } ∧
    monitor_loop 2 0 (fun _ => IterOutcome.normal true) true =
      some { exit := LoopExit.flagCleared, final_is_running := false,
             error_logged := none, cycles_run := 1 } :=
  uptimer_C8_stop_only_clears_flag (apply_op (init_monitor 60 30) MonitorOp.start)
    (Reachable.step (init_monitor 60 30) MonitorOp.start (Reachable.init 60 30))
    (fun _ => IterOutcome.normal true) 0 2 rfl (by norm_num)

/-- C9: the claim fails on the code: validate_config reads the attribute
admin_chat_id, which Config.__init__ never assigns (it assigns
admin_chat_ids and primary_admin_chat_id), so even for the default
configuration — positive ping interval and request timeout and a non-empty
bot token — the call raises AttributeError instead of returning True, and the
interval and timeout checks are never reached. -/
theorem uptimer_C9_validate_config_attribute_bug :
    validate_config default_config =
      Except.error (PyError.attributeError "admin_chat_id") ∧
    0 < default_config.ping_interval ∧
    0 < default_config.request_timeout ∧
    default_config.bot_token ≠ "" := by
  refine ⟨rfl, by norm_num [default_config], by norm_num [default_config], by decide⟩
